import Mathlib

/-!
Shallow embedding of `src/scrape.py` (maxx06/job-automation), a Selenium
scraper for SEI filings.  The parsing logic of `search_sei`
(lines 83-113), the per-record download loop of `download_sei_pdfs`
(lines 115-156), the form-filling sequence of `search_sei` (lines 44-76)
and the dispatch of `main` (lines 158-178) are translated into pure Lean
functions over explicit page / browser-environment / world types.
-/

set_option autoImplicit false

namespace Scrape

/-- Python `str.strip()`: remove leading and trailing whitespace. -/
def str_strip (s : String) : String :=
  ⟨(((s.data.dropWhile Char.isWhitespace).reverse).dropWhile Char.isWhitespace).reverse⟩

/-- Python `str.startswith(pre)`. -/
def str_startswith (s pre : String) : Bool :=
  pre.data.isPrefixOf s.data

/-- Python `str.replace(old, new)` on character lists: replace every
non-overlapping occurrence of `old`, scanning left to right.  The
source only calls it with non-empty `old` (`" "` and `"javascript:"`);
for empty `old` this returns the input unchanged. -/
def replaceListAux (old new : List Char) : Nat → List Char → List Char
  | _, [] => []
  | 0, l => l
  | fuel + 1, c :: rest =>
    match old with
    | [] => c :: rest
    | o :: os =>
      if (o :: os).isPrefixOf (c :: rest) then
        new ++ replaceListAux old new fuel (rest.drop os.length)
      else
        c :: replaceListAux old new fuel rest

/-- Entry point of the scan: each step consumes at least one input
character, so the input length bounds the recursion depth. -/
def replaceList (old new l : List Char) : List Char :=
  replaceListAux old new l.length l

/-- Python `str.replace(old, new)`. -/
def str_replace (s old new : String) : String :=
  ⟨replaceList old.data new.data s.data⟩

/-- An HTML anchor tag (`<a>`), carrying its attribute list.
`view_link.attrs` in the Python code is this association list;
`'href' in view_link.attrs` is a key-membership test and
`view_link['href']` the lookup. -/
structure Anchor where
  attrs : List (String × String)
  deriving Repr, DecidableEq

/-- Attribute lookup `a.attrs[k]` as an optional lookup (first matching key wins,
as in a Python dict with unique keys). -/
def Anchor.getAttr (a : Anchor) (k : String) : Option String :=
  (a.attrs.find? (fun p => p.1 == k)).map Prod.snd

/-- A table cell (`<td>`): its text content and the anchors it contains,
in document order.  `cells[0].find('a')` returns the first anchor or
`None`; `cells[i].text` is the text. -/
structure Cell where
  text : String
  anchors : List Anchor
  deriving Repr, DecidableEq

/-- The call `cell.find('a')`: first contained anchor, if any. -/
def Cell.findAnchor (c : Cell) : Option Anchor :=
  c.anchors.head?

/-- A table row (`<tr>`) as its list of `<td>` cells
(`row.find_all('td')`). -/
structure Row where
  cells : List Cell
  deriving Repr, DecidableEq

/-- The rendered results page as seen by `search_sei` after submitting
the form: whether `driver.find_elements(By.CSS_SELECTOR, "table.GridView")`
is non-empty, and the rows selected by `soup.select("table.GridView tr")`. -/
structure Page where
  hasGridViewTable : Bool
  rows : List Row
  deriving Repr, DecidableEq

/-- One harvested result, the dict
`{'name': ..., 'position': ..., 'link': ...}` built at
src/scrape.py:107-111. -/
structure ResultRecord where
  name : String
  position : String
  link : String
  deriving Repr, DecidableEq

/-- The body of the row loop at src/scrape.py:97-111 for one row's cell
list: rows with fewer than two cells are skipped; `name` is the trimmed
text of the second cell, `position` the trimmed text of the third cell if
present else `""`; the record is appended only when the first cell
contains an anchor (`view_link`) that has an `href` attribute. -/
def parseRow (cells : List Cell) : Option ResultRecord :=
  match cells with
  | c0 :: c1 :: rest =>
    let name := str_strip c1.text
    let position :=
      match rest with
      | c2 :: _ => str_strip c2.text
      | [] => ""
    match c0.findAnchor with
    | some viewLink =>
      match viewLink.getAttr "href" with
      | some link => some { name := name, position := position, link := link }
      | none => none
    | none => none
  | _ => none

/-- The result-extraction part of `search_sei` (src/scrape.py:83-113):
if no `table.GridView` element is present, return `[]`; otherwise parse
all selected rows, skipping the first (header) row (`rows[1:]`). -/
def search_sei_results (page : Page) : List ResultRecord :=
  if !page.hasGridViewTable then
    []
  else
    (page.rows.drop 1).filterMap (fun r => parseRow r.cells)

/-- An HTTP response as used from `requests.get`: status code and body
bytes. -/
structure HttpResponse where
  status_code : Nat
  content : List Nat
  deriving Repr, DecidableEq

/-- The browser/network environment for one iteration of the download
loop: the outcome of each effectful Selenium / requests / file call the
iteration may perform.  `Except String α` models a Python call that
either returns or raises (the `String` is the exception message). -/
structure RecordEnv where
  execScript : Except String Unit
  window_handles : List String
  switchToSecond : Except String Unit
  current_url : Except String String
  httpGet : String → Except String HttpResponse
  writeOk : Except String Unit
  closeOk : Except String Unit
  switchBack : Except String Unit

/-- Observable state threaded through `download_sei_pdfs`: the files on
disk (association list, path to content), the URLs fetched with
`requests.get`, the error lines printed by the `except` handler, which
records the loop body has been entered for, whether a secondary browser
window is currently open, and whether focus is on the primary window. -/
structure World where
  files : List (String × List Nat)
  httpRequests : List String
  loggedErrors : List String
  processed : List String
  secondaryOpen : Bool
  focusPrimary : Bool
  deriving Repr, DecidableEq

/-- Write `content` to `path`, overwriting an existing entry
(`open(filename, 'wb')` truncates and rewrites). -/
def setFile : List (String × List Nat) → String → List Nat → List (String × List Nat)
  | [], path, content => [(path, content)]
  | e :: rest, path, content =>
    if e.1 == path then (path, content) :: rest
    else e :: setFile rest path content

/-- Look up the content stored at `path`. -/
def lookupFile : List (String × List Nat) → String → Option (List Nat)
  | [], _ => none
  | e :: rest, path => if e.1 == path then some e.2 else lookupFile rest path

/-- Filename derivation at src/scrape.py:145: the name and the position,
each with every space replaced by an underscore, joined by an underscore,
with .pdf appended. -/
def deriveFilename (name position : String) : String :=
  str_replace name " " "_" ++ "_" ++ str_replace position " " "_" ++ ".pdf"

/-- Path joining `os.path.join(output_dir, filename)` for the relative paths used
here. -/
def joinPath (dir filename : String) : String :=
  dir ++ "/" ++ filename

/-- The tail of the `try` block (src/scrape.py:153-154): `driver.close()`
on the secondary window, then `driver.switch_to.window(windows[0])`.
These statements run after the status-code conditional, whatever the
status was, but are skipped when an earlier statement raised. -/
def closeAndSwitchBack (env : RecordEnv) (w : World) : World × Option String :=
  match env.closeOk with
  | .error e => (w, some e)
  | .ok _ =>
    match env.switchBack with
    | .error e => ({ w with secondaryOpen := false }, some e)
    | .ok _ => ({ w with secondaryOpen := false, focusPrimary := true }, none)

/-- The `try` block of one iteration of the loop at
src/scrape.py:121-154, evaluated against environment `env` in world `w`.
Returns the world after the iteration together with `some msg` when an
exception escaped the block (to be caught by the `except` at line 155),
`none` when it completed normally.  Control flow mirrors the source:
records whose link does not start with `"javascript:"`, and iterations
where at most one window handle exists, fall through silently; the
`driver.close()` / `switch_to.window(windows[0])` pair runs only at the
end of the block, after the HTTP download. -/
def downloadRecordTry (env : RecordEnv) (r : ResultRecord) (output_dir : String)
    (w : World) : World × Option String :=
  if str_startswith r.link "javascript:" then
    match env.execScript with
    | .error e => (w, some e)
    | .ok _ =>
      if env.window_handles.length > 1 then
        match env.switchToSecond with
        | .error e => ({ w with secondaryOpen := true }, some e)
        | .ok _ =>
          match env.current_url with
          | .error e =>
            ({ w with secondaryOpen := true, focusPrimary := false }, some e)
          | .ok pdf_url =>
            match env.httpGet pdf_url with
            | .error e =>
              ({ w with
                  secondaryOpen := true
                  focusPrimary := false
                  httpRequests := w.httpRequests ++ [pdf_url] }, some e)
            | .ok response =>
              if response.status_code == 200 then
                match env.writeOk with
                | .error e =>
                  ({ w with
                      secondaryOpen := true
                      focusPrimary := false
                      httpRequests := w.httpRequests ++ [pdf_url] }, some e)
                | .ok _ =>
                  closeAndSwitchBack env
                    { w with
                        secondaryOpen := true
                        focusPrimary := false
                        httpRequests := w.httpRequests ++ [pdf_url]
                        files := setFile w.files
                          (joinPath output_dir (deriveFilename r.name r.position))
                          response.content }
              else
                closeAndSwitchBack env
                  { w with
                      secondaryOpen := true
                      focusPrimary := false
                      httpRequests := w.httpRequests ++ [pdf_url] }
      else
        (w, none)
  else
    (w, none)

/-- One full iteration of the loop at src/scrape.py:121-156: entering the
body is recorded in `processed`, the `try` block runs, and an escaping
exception is caught by `except Exception as e` and printed
(`loggedErrors`), never re-raised. -/
def downloadRecord (env : RecordEnv) (r : ResultRecord) (output_dir : String)
    (w : World) : World :=
  let w0 := { w with processed := w.processed ++ [r.name] }
  match downloadRecordTry env r output_dir w0 with
  | (w1, none) => w1
  | (w1, some e) =>
    { w1 with loggedErrors :=
        w1.loggedErrors ++ ["Error downloading SEI for " ++ r.name ++ ": " ++ e] }

/-- The function `download_sei_pdfs` (src/scrape.py:115-156): sequential loop over the
harvested records, each paired with the environment the browser presents
during its iteration.  Directory creation is plumbing outside the model. -/
def download_sei_pdfs (items : List (ResultRecord × RecordEnv)) (output_dir : String)
    (w : World) : World :=
  items.foldl (fun acc p => downloadRecord p.2 p.1 output_dir acc) w

/-- Substring containment over the underlying character lists, used to
model a CSS attribute-contains selector such as matching ids that
contain `FirstName`. -/
def charListContains : List Char → List Char → Bool
  | [], p => p.isEmpty
  | c :: rest, p => p.isPrefixOf (c :: rest) || charListContains rest p

/-- Tests that `sub` occurs as a contiguous substring of `s`. -/
def strContains (s sub : String) : Bool :=
  charListContains s.toList sub.toList

/-- A DOM element as returned by `driver.find_element`: its tag name and
the attributes the selectors in the source inspect. -/
structure WebElement where
  tag : String
  id : String
  value : String
  deriving Repr, DecidableEq

/-- Python truthiness of a Selenium `WebElement`: the class defines
neither a boolean conversion nor a length, so every element object is
truthy; `if not first_name_field:` after a successful `find_element`
can therefore never take the fallback branch. -/
def WebElement.isTruthy (_ : WebElement) : Bool :=
  true

/-- The search form page as seen by the element lookups in `search_sei`
(src/scrape.py:44-70): the elements present, in document order. -/
structure FormPage where
  elements : List WebElement
  deriving Repr, DecidableEq

/-- The call `driver.find_element(By.ID, i)`: first element with exactly that id,
raising `NoSuchElementException` when none exists (Selenium
`find_element` raises rather than returning a null value). -/
def find_element_by_id (p : FormPage) (i : String) : Except String WebElement :=
  match p.elements.find? (fun e => e.id == i) with
  | some e => .ok e
  | none => .error ("NoSuchElementException: id=" ++ i)

/-- The call `driver.find_element(By.CSS_SELECTOR, ...)` for a selector of shape
input[id*=sub]: first input element whose id contains `sub`;
raises when none matches. -/
def find_element_css_id_contains (p : FormPage) (sub : String) :
    Except String WebElement :=
  match p.elements.find? (fun e => e.tag == "input" && strContains e.id sub) with
  | some e => .ok e
  | none => .error ("NoSuchElementException: css id contains " ++ sub)

/-- The call `driver.find_element(By.CSS_SELECTOR, ...)` for a selector of shape
input[value=v]: first input element with that value attribute;
raises when none matches. -/
def find_element_css_value (p : FormPage) (v : String) :
    Except String WebElement :=
  match p.elements.find? (fun e => e.tag == "input" && e.value == v) with
  | some e => .ok e
  | none => .error ("NoSuchElementException: css value " ++ v)

/-- Interactions performed on the form: text sent to fields
(`send_keys`, keyed by element id) and controls clicked. -/
structure FormState where
  fieldEntries : List (String × String)
  clicked : List String
  deriving Repr, DecidableEq

/-- The call `element.send_keys(text)`. -/
def sendKeys (st : FormState) (e : WebElement) (text : String) : FormState :=
  { st with fieldEntries := st.fieldEntries ++ [(e.id, text)] }

/-- The call `element.click()`. -/
def click (st : FormState) (e : WebElement) : FormState :=
  { st with clicked := st.clicked ++ [e.id] }

/-- The lookup for the first-name field (src/scrape.py:49-52): primary
lookup by id (which raises if absent), then the dead `if not ...`
fallback to the pattern selector. -/
def locate_first_name (p : FormPage) : Except String WebElement := do
  let fld ← find_element_by_id p "ctl00_MainContentPlaceHolder_txtFirstName"
  if fld.isTruthy then
    pure fld
  else
    find_element_css_id_contains p "FirstName"

/-- The lookup for the last-name field (src/scrape.py:58-61). -/
def locate_last_name (p : FormPage) : Except String WebElement := do
  let fld ← find_element_by_id p "ctl00_MainContentPlaceHolder_txtLastName"
  if fld.isTruthy then
    pure fld
  else
    find_element_css_id_contains p "LastName"

/-- The lookup for the search button (src/scrape.py:66-69). -/
def locate_search_button (p : FormPage) : Except String WebElement := do
  let btn ← find_element_by_id p "ctl00_MainContentPlaceHolder_btnSearchSEI"
  if btn.isTruthy then
    pure btn
  else
    find_element_css_value p "Search SEI"

/-- The `if first_name:` statement (src/scrape.py:48-54): when a first
name is given, locate the field and type into it; a lookup failure
propagates. -/
def fill_first_name (p : FormPage) : Option String → FormState →
    Except String FormState
  | none, st => .ok st
  | some fn, st =>
    match locate_first_name p with
    | .error e => .error e
    | .ok fld => .ok (sendKeys st fld fn)

/-- The `if last_name:` statement (src/scrape.py:57-63). -/
def fill_last_name (p : FormPage) : Option String → FormState →
    Except String FormState
  | none, st => .ok st
  | some ln, st =>
    match locate_last_name p with
    | .error e => .error e
    | .ok fld => .ok (sendKeys st fld ln)

/-- Locating and clicking the search button (src/scrape.py:66-70). -/
def click_search (p : FormPage) (st : FormState) : Except String FormState :=
  match locate_search_button p with
  | .error e => .error e
  | .ok btn => .ok (click st btn)

/-- The form-filling `try` block of `search_sei` (src/scrape.py:46-71)
over the four search parameters of the signature at line 24.  An
`Except.error` is the fatal path: the `except` at lines 72-76 saves
`form_error_screenshot.png` and re-raises.  `entity_type` and `position`
appear in the signature of `search_sei` but are never referenced in its
body, which this embedding mirrors. -/
def search_sei_fill_form (p : FormPage)
    (first_name last_name entity_type position : Option String) :
    Except String FormState :=
  match fill_first_name p first_name { fieldEntries := [], clicked := [] } with
  | .error e => .error e
  | .ok st1 =>
    match fill_last_name p last_name st1 with
    | .error e => .error e
    | .ok st2 => click_search p st2

/-- The dispatch in `main` (src/scrape.py:168-174): run the search, and
run the downloader only when the result list is non-empty (`if results:`).
Returns the final world and whether the downloader phase ran. -/
def main_run (page : Page) (envFor : ResultRecord → RecordEnv) (w : World) :
    World × Bool :=
  let results := search_sei_results page
  if results.isEmpty then
    (w, false)
  else
    (download_sei_pdfs (results.map (fun r => (r, envFor r))) "sei_pdfs" w, true)

/-! Concrete sample data used to exercise the definitions. -/

/-- An anchor carrying only an `href` attribute. -/
def hrefAnchor (link : String) : Anchor := ⟨[("href", link)]⟩

/-- A cell whose first anchor is `hrefAnchor link`. -/
def cellWithAnchor (link : String) : Cell := ⟨"", [hrefAnchor link]⟩

/-- A plain text cell with no anchors. -/
def textCell (t : String) : Cell := ⟨t, []⟩

/-- A header row: its `<th>` cells yield no `<td>` elements. -/
def headerRow : Row := ⟨[]⟩

/-- A well-formed data row for John Smith. -/
def rowJohn : Row :=
  ⟨[cellWithAnchor "javascript:viewSEI(123)", textCell " John Smith ", textCell " Governor "]⟩

/-- A malformed data row with a single cell. -/
def rowShort : Row := ⟨[textCell "lone"]⟩

/-- A data row whose first cell has no anchor. -/
def rowNoAnchor : Row := ⟨[textCell "", textCell "Jane Doe", textCell "Mayor"]⟩

/-- An anchor without an `href` attribute. -/
def noHrefAnchor : Anchor := ⟨[("onclick", "viewSEI(7)")]⟩

/-- A data row whose first-cell anchor lacks `href`. -/
def rowNoHref : Row := ⟨[⟨"", [noHrefAnchor]⟩, textCell "Jim Poe", textCell "Clerk"]⟩

/-- Results page with a header and one good row. -/
def pageJohn : Page := ⟨true, [headerRow, rowJohn]⟩

/-- Results page mixing good, short and anchor-less rows. -/
def pageMixed : Page := ⟨true, [headerRow, rowShort, rowJohn, rowNoAnchor]⟩

/-- Page without a `table.GridView` element. -/
def pageNoTable : Page := ⟨false, []⟩

/-- Results page whose only data row has no anchor in its first cell. -/
def pageNoAnchors : Page := ⟨true, [headerRow, rowNoAnchor]⟩

/-- Results page whose only data row has an anchor without `href`. -/
def pageNoHref : Page := ⟨true, [headerRow, rowNoHref]⟩

/-- A harvested record for John Smith. -/
def recJohn : ResultRecord := ⟨"John Smith", "Governor", "javascript:viewSEI(123)"⟩

/-- A harvested record for Jane Doe. -/
def recJane : ResultRecord := ⟨"Jane Doe", "Mayor", "javascript:viewSEI(456)"⟩

/-- A record whose link is a direct URL, not a script invocation. -/
def recPlain : ResultRecord := ⟨"Jane Doe", "Mayor", "http://example.org/direct.pdf"⟩

/-- Environment where every Selenium / HTTP / file step succeeds. -/
def envAllOk : RecordEnv :=
  { execScript := .ok ()
    window_handles := ["w0", "w1"]
    switchToSecond := .ok ()
    current_url := .ok "http://example.org/sei123.pdf"
    httpGet := fun _ => .ok ⟨200, [37, 80, 68, 70]⟩
    writeOk := .ok ()
    closeOk := .ok ()
    switchBack := .ok () }

/-- Environment where the HTTP GET raises a connection error. -/
def envHttpError : RecordEnv := { envAllOk with httpGet := fun _ => .error "ConnectionError" }

/-- Environment where the HTTP GET returns a 404 response. -/
def envNotFound : RecordEnv := { envAllOk with httpGet := fun _ => .ok ⟨404, []⟩ }

/-- Environment where executing the script opens no second window. -/
def envOneWindow : RecordEnv := { envAllOk with window_handles := ["w0"] }

/-- The initial world: no files, no requests, no errors, focus on the
primary window. -/
def emptyWorld : World := ⟨[], [], [], [], false, true⟩

/-- A text input element with the given id. -/
def inputEl (i : String) : WebElement := ⟨"input", i, ""⟩

/-- Form page on which every field the claims mention exists, with the
primary ids the source expects, plus the submit button. -/
def pageAllFields : FormPage :=
  ⟨[inputEl "ctl00_MainContentPlaceHolder_txtFirstName",
    inputEl "ctl00_MainContentPlaceHolder_txtLastName",
    inputEl "ctl00_MainContentPlaceHolder_txtEntityType",
    inputEl "ctl00_MainContentPlaceHolder_txtPosition",
    ⟨"input", "ctl00_MainContentPlaceHolder_btnSearchSEI", "Search SEI"⟩]⟩

/-- Form page on which the first-name input exists but under a different
id that still contains the pattern the fallback selector looks for. -/
def pageAltFirstName : FormPage :=
  ⟨[inputEl "ctl01_Alt_txtFirstName",
    inputEl "ctl00_MainContentPlaceHolder_txtLastName",
    ⟨"input", "ctl00_MainContentPlaceHolder_btnSearchSEI", "Search SEI"⟩]⟩

/-! Helper lemmas. -/

/-- A row with fewer than two cells is skipped by the row loop. -/
lemma parseRow_of_short (cells : List Cell) (h : cells.length < 2) :
    parseRow cells = none := by
  match cells with
  | [] => rfl
  | [c] => rfl
  | c0 :: c1 :: rest =>
    simp only [List.length_cons] at h
    omega

/-- A row whose first cell has no anchor is skipped by the row loop. -/
lemma parseRow_of_no_anchor (c0 : Cell) (rest : List Cell)
    (h : c0.findAnchor = none) : parseRow (c0 :: rest) = none := by
  match rest with
  | [] => rfl
  | c1 :: rest' => simp [parseRow, h]

/-- A row whose first-cell anchor lacks an href attribute is skipped by
the row loop. -/
lemma parseRow_of_no_href (c0 : Cell) (a : Anchor) (rest : List Cell)
    (ha : c0.findAnchor = some a) (hh : a.getAttr "href" = none) :
    parseRow (c0 :: rest) = none := by
  match rest with
  | [] => simp [parseRow, ha, hh]
  | c1 :: rest' => simp [parseRow, ha, hh]

/-- The close-and-switch-back tail never touches the `processed` trace. -/
lemma closeAndSwitchBack_processed (env : RecordEnv) (w : World) :
    ((closeAndSwitchBack env w).1).processed = w.processed := by
  unfold closeAndSwitchBack
  repeat' split
  all_goals rfl

/-- The `try` block of a download iteration never touches the
`processed` trace. -/
lemma downloadRecordTry_processed (env : RecordEnv) (r : ResultRecord)
    (dir : String) (w : World) :
    ((downloadRecordTry env r dir w).1).processed = w.processed := by
  unfold downloadRecordTry
  repeat' split
  all_goals first
    | rfl
    | apply closeAndSwitchBack_processed

/-- Each download iteration appends exactly its record's name to the
`processed` trace. -/
lemma downloadRecord_processed (env : RecordEnv) (r : ResultRecord)
    (dir : String) (w : World) :
    (downloadRecord env r dir w).processed = w.processed ++ [r.name] := by
  have h := downloadRecordTry_processed env r dir
    { w with processed := w.processed ++ [r.name] }
  simp only [downloadRecord]
  split <;> simp_all

/-- Looking up a path right after writing it returns the written content,
whether or not the path already existed. -/
lemma lookupFile_setFile (fs : List (String × List Nat)) (p : String)
    (c : List Nat) : lookupFile (setFile fs p c) p = some c := by
  induction fs with
  | nil => simp [setFile, lookupFile]
  | cons hd tl ih =>
    by_cases hh : hd.1 = p
    · simp [setFile, lookupFile, hh]
    · have hb : (hd.1 == p) = false := by simp [hh]
      simp [setFile, lookupFile, hb, ih]

/-- No space character survives a scan replacing spaces by underscores
(given enough fuel). -/
lemma space_not_mem_replaceListAux (fuel : Nat) :
    ∀ l : List Char, l.length ≤ fuel →
      (' ' : Char) ∉ replaceListAux [' '] ['_'] fuel l := by
  induction fuel with
  | zero =>
    intro l hl
    match l with
    | [] => simp [replaceListAux]
  | succ n ih =>
    intro l hl
    match l with
    | [] => simp [replaceListAux]
    | c :: rest =>
      simp only [replaceListAux]
      by_cases hp : [' '].isPrefixOf (c :: rest) = true
      · rw [if_pos hp]
        intro hmem
        rcases List.mem_append.1 hmem with h | h
        · revert h
          decide
        · have hr : rest.length ≤ n := by
            simp only [List.length_cons] at hl
            omega
          simp only [List.length_nil, List.drop_zero] at h
          exact ih rest hr h
      · rw [if_neg hp]
        have hc : ¬ (' ' = c) := by
          intro hc
          apply hp
          rw [← hc]
          simp [List.isPrefixOf]
        intro hmem
        rcases List.mem_cons.1 hmem with h | h
        · exact hc h
        · have hr : rest.length ≤ n := by
            simp only [List.length_cons] at hl
            omega
          exact ih rest hr h

/-- The function `deriveFilename` leaves no space in the produced filename. -/
lemma space_not_mem_deriveFilename (n pos : String) :
    (' ' : Char) ∉ (deriveFilename n pos).data := by
  unfold deriveFilename str_replace replaceList
  intro hmem
  simp only [String.data_append, List.mem_append] at hmem
  rcases hmem with ((h | h) | h) | h
  · exact space_not_mem_replaceListAux _ _ le_rfl h
  · revert h
    decide
  · exact space_not_mem_replaceListAux _ _ le_rfl h
  · revert h
    decide

/-- The download loop enters its body once per record, in order,
whatever each iteration's environment does. -/
lemma download_sei_pdfs_processed (items : List (ResultRecord × RecordEnv))
    (dir : String) (w : World) :
    (download_sei_pdfs items dir w).processed =
      w.processed ++ items.map (fun p => p.1.name) := by
  induction items generalizing w with
  | nil => simp [download_sei_pdfs]
  | cons p rest ih =>
    show (download_sei_pdfs rest dir (downloadRecord p.2 p.1 dir w)).processed = _
    rw [ih, downloadRecord_processed]
    simp

/-- A successful first-name fill with a given name appends exactly one
entry carrying that name. -/
lemma fill_first_name_some (p : FormPage) (f : String) (st st' : FormState)
    (h : fill_first_name p (some f) st = .ok st') :
    ∃ e, st'.fieldEntries = st.fieldEntries ++ [(e, f)] := by
  unfold fill_first_name at h
  cases hl : locate_first_name p with
  | error e =>
    rw [hl] at h
    exact absurd h (by simp)
  | ok fld =>
    rw [hl] at h
    simp only [Except.ok.injEq] at h
    exact ⟨fld.id, by rw [← h]; rfl⟩

/-- A successful last-name fill with a given name appends exactly one
entry carrying that name. -/
lemma fill_last_name_some (p : FormPage) (l : String) (st st' : FormState)
    (h : fill_last_name p (some l) st = .ok st') :
    ∃ e, st'.fieldEntries = st.fieldEntries ++ [(e, l)] := by
  unfold fill_last_name at h
  cases hl : locate_last_name p with
  | error e =>
    rw [hl] at h
    exact absurd h (by simp)
  | ok fld =>
    rw [hl] at h
    simp only [Except.ok.injEq] at h
    exact ⟨fld.id, by rw [← h]; rfl⟩

/-- The last-name fill only ever appends entries. -/
lemma fill_last_name_mono (p : FormPage) (ln : Option String)
    (st st' : FormState) (h : fill_last_name p ln st = .ok st') :
    ∀ x ∈ st.fieldEntries, x ∈ st'.fieldEntries := by
  cases ln with
  | none =>
    unfold fill_last_name at h
    simp only [Except.ok.injEq] at h
    subst h
    exact fun x hx => hx
  | some l =>
    obtain ⟨e, he⟩ := fill_last_name_some p l st st' h
    intro x hx
    rw [he]
    exact List.mem_append_left _ hx

/-- Clicking the submit control never changes the field entries. -/
lemma click_search_entries (p : FormPage) (st st' : FormState)
    (h : click_search p st = .ok st') :
    st'.fieldEntries = st.fieldEntries := by
  unfold click_search at h
  split at h
  · exact absurd h (by simp)
  · simp only [Except.ok.injEq] at h
    subst h
    rfl

/-! Claim theorems. -/

/-- C1: for a results table parsed as one header row followed by `N`
data rows, `search_sei` returns at most `N` records; the header row is
always skipped (the harvest is exactly the filter-map over the data
rows), and any row with fewer than two cells contributes nothing. -/
theorem harvest_at_most_data_rows (page : Page) (header : Row)
    (dataRows : List Row) (h : page.rows = header :: dataRows) :
    (search_sei_results page).length ≤ dataRows.length ∧
    (page.hasGridViewTable = true →
      search_sei_results page = dataRows.filterMap (fun r => parseRow r.cells)) ∧
    ∀ r : Row, r.cells.length < 2 → parseRow r.cells = none := by
  refine ⟨?_, ?_, fun r hr => parseRow_of_short r.cells hr⟩
  · unfold search_sei_results
    split
    · simp
    · rw [h]
      simp only [List.drop_one, List.tail_cons]
      exact List.length_filterMap_le _ _
  · intro hgv
    unfold search_sei_results
    rw [hgv, h]
    simp only [Bool.not_true, Bool.false_eq_true, if_false, List.drop_one,
      List.tail_cons]

/-- Witness for C1: on a table with three data rows (one short, one
well-formed, one anchor-less) the harvester returns at most three
records, and in fact exactly the one well-formed record. -/
theorem harvest_at_most_data_rows_witness :
    (search_sei_results pageMixed).length ≤ 3 ∧
    search_sei_results pageMixed = [recJohn] :=
  ⟨(harvest_at_most_data_rows pageMixed headerRow [rowShort, rowJohn, rowNoAnchor]
      rfl).1,
   by decide⟩

/-- C3 counterexample: a data row with three cells whose first cell has
no anchor yields no harvested record — the harvested list is empty, so
the row is excluded from the result list itself, not merely from the
download phase. -/
theorem no_anchor_row_counterexample :
    rowNoAnchor.cells.length = 3 ∧ search_sei_results pageNoAnchors = [] := by
  decide

/-- C3 (amended): a data row whose first cell contains no anchor yields
no `ResultRecord` at all — the `view_link` guard is in the harvester, so
the row is excluded from the harvested result list (and hence from the
download phase); a page all of whose data rows lack first-cell anchors
harvests to the empty list. -/
theorem no_anchor_rows_excluded_from_harvest (page : Page)
    (h : ∀ r ∈ page.rows.drop 1, ∀ (c0 : Cell) (rest : List Cell),
      r.cells = c0 :: rest → c0.findAnchor = none) :
    search_sei_results page = [] ∧
    ∀ (c0 : Cell) (rest : List Cell), c0.findAnchor = none →
      parseRow (c0 :: rest) = none := by
  refine ⟨?_, fun c0 rest hc => parseRow_of_no_anchor c0 rest hc⟩
  unfold search_sei_results
  split
  · rfl
  · rw [List.filterMap_eq_nil_iff]
    intro r hr
    match hc : r.cells with
    | [] => rfl
    | c0 :: rest => exact parseRow_of_no_anchor c0 rest (h r hr c0 rest hc)

/-- Witness for the amended C3 at the concrete anchor-less page. -/
theorem no_anchor_rows_excluded_from_harvest_witness :
    search_sei_results pageNoAnchors = [] :=
  (no_anchor_rows_excluded_from_harvest pageNoAnchors (by
      intro r hr c0 rest hc
      simp only [pageNoAnchors, List.drop_one, List.tail_cons,
        List.mem_singleton] at hr
      subst hr
      simp only [rowNoAnchor, textCell] at hc
      obtain ⟨h1, -⟩ := List.cons.inj hc.symm
      rw [h1]
      rfl)).1

/-- C4: when the `table.GridView` marker is absent, or the selected row
list has at most a header row, `search_sei` returns `[]` (without
raising — the embedding is a total function), and `main` then skips the
downloader phase entirely, leaving the world untouched. -/
theorem empty_or_absent_table_yields_empty (page : Page)
    (envFor : ResultRecord → RecordEnv) (w : World) :
    (page.hasGridViewTable = false →
      search_sei_results page = [] ∧ main_run page envFor w = (w, false)) ∧
    (page.rows.length ≤ 1 →
      search_sei_results page = [] ∧ main_run page envFor w = (w, false)) := by
  constructor
  · intro h
    have he : search_sei_results page = [] := by
      unfold search_sei_results
      rw [h]
      rfl
    exact ⟨he, by simp [main_run, he]⟩
  · intro h
    have he : search_sei_results page = [] := by
      unfold search_sei_results
      split
      · rfl
      · rw [List.drop_eq_nil_of_le h]
        rfl
    exact ⟨he, by simp [main_run, he]⟩

/-- Witness for C4: a page with no results table harvests to `[]` and
`main` skips the downloader. -/
theorem empty_or_absent_table_yields_empty_witness :
    search_sei_results pageNoTable = [] ∧
    main_run pageNoTable (fun _ => envAllOk) emptyWorld = (emptyWorld, false) :=
  (empty_or_absent_table_yields_empty pageNoTable (fun _ => envAllOk)
    emptyWorld).1 rfl

/-- C9: a data row whose first-cell anchor exists but has no `href`
attribute is skipped by the harvester (no record, so no download attempt
is ever made for it), and both phases complete without raising: on a
page whose only data row is such a row, the harvest is `[]` and `main`
skips the downloader, leaving the world untouched. -/
theorem no_href_anchor_row_excluded (c0 : Cell) (a : Anchor)
    (rest : List Cell) (ha : c0.findAnchor = some a)
    (hh : a.getAttr "href" = none) :
    parseRow (c0 :: rest) = none ∧
    ∀ (page : Page) (envFor : ResultRecord → RecordEnv) (w : World),
      page.rows.drop 1 = [⟨c0 :: rest⟩] →
      search_sei_results page = [] ∧ main_run page envFor w = (w, false) := by
  have hp := parseRow_of_no_href c0 a rest ha hh
  refine ⟨hp, ?_⟩
  intro page envFor w hrows
  have he : search_sei_results page = [] := by
    unfold search_sei_results
    split
    · rfl
    · rw [hrows]
      simp [hp]
  exact ⟨he, by simp [main_run, he]⟩

/-- Witness for C9 at the concrete page whose only data row carries an
anchor without `href`. -/
theorem no_href_anchor_row_excluded_witness :
    parseRow (⟨"", [noHrefAnchor]⟩ :: [textCell "Jim Poe", textCell "Clerk"]) =
      none ∧
    search_sei_results pageNoHref = [] ∧
    main_run pageNoHref (fun _ => envAllOk) emptyWorld = (emptyWorld, false) :=
  have h := no_href_anchor_row_excluded ⟨"", [noHrefAnchor]⟩ noHrefAnchor
    [textCell "Jim Poe", textCell "Clerk"] rfl (by decide)
  ⟨h.1,
   (h.2 pageNoHref (fun _ => envAllOk) emptyWorld rfl).1,
   (h.2 pageNoHref (fun _ => envAllOk) emptyWorld rfl).2⟩

/-- C2: the download loop isolates per-record failures.  Processing a
record always hands the loop on to the remaining records; every record
is visited exactly once whatever the environments do (including ones
where every step raises); and an exception escaping the `try` block of a
record is caught and logged, the iteration returning normally. -/
theorem download_loop_isolates_failures
    (items : List (ResultRecord × RecordEnv)) (output_dir : String) (w : World) :
    (∀ (r : ResultRecord) (env : RecordEnv)
        (rest : List (ResultRecord × RecordEnv)),
      download_sei_pdfs ((r, env) :: rest) output_dir w =
        download_sei_pdfs rest output_dir (downloadRecord env r output_dir w)) ∧
    (download_sei_pdfs items output_dir w).processed =
      w.processed ++ items.map (fun p => p.1.name) ∧
    (∀ (env : RecordEnv) (r : ResultRecord) (w1 : World) (e : String),
      downloadRecordTry env r output_dir
          { w with processed := w.processed ++ [r.name] } = (w1, some e) →
      downloadRecord env r output_dir w =
        { w1 with loggedErrors := w1.loggedErrors ++
            ["Error downloading SEI for " ++ r.name ++ ": " ++ e] }) := by
  refine ⟨fun r env rest => rfl, download_sei_pdfs_processed items output_dir w,
    ?_⟩
  intro env r w1 e h
  simp only [downloadRecord]
  rw [h]

/-- Witness for C2: with a first record whose HTTP GET raises and a
second that succeeds, both records are processed, the failure is logged,
and the second record's file is still written. -/
theorem download_loop_isolates_failures_witness :
    (download_sei_pdfs [(recJohn, envHttpError), (recJane, envAllOk)]
        "sei_pdfs" emptyWorld).processed = ["John Smith", "Jane Doe"] ∧
    (download_sei_pdfs [(recJohn, envHttpError), (recJane, envAllOk)]
        "sei_pdfs" emptyWorld).loggedErrors =
      ["Error downloading SEI for John Smith: ConnectionError"] ∧
    (download_sei_pdfs [(recJohn, envHttpError), (recJane, envAllOk)]
        "sei_pdfs" emptyWorld).files =
      [("sei_pdfs/Jane_Doe_Mayor.pdf", [37, 80, 68, 70])] ∧
    downloadRecord envHttpError recJohn "sei_pdfs" emptyWorld =
      { files := []
        httpRequests := ["http://example.org/sei123.pdf"]
        loggedErrors := ["Error downloading SEI for John Smith: ConnectionError"]
        processed := ["John Smith"]
        secondaryOpen := true
        focusPrimary := false } := by
  refine ⟨?_, by decide, by decide, ?_⟩
  · have h := (download_loop_isolates_failures
      [(recJohn, envHttpError), (recJane, envAllOk)] "sei_pdfs" emptyWorld).2.1
    rw [h]
    decide
  · have h := (download_loop_isolates_failures [] "sei_pdfs" emptyWorld).2.2
      envHttpError recJohn
      { files := []
        httpRequests := ["http://example.org/sei123.pdf"]
        loggedErrors := []
        processed := ["John Smith"]
        secondaryOpen := true
        focusPrimary := false }
      "ConnectionError" (by decide)
    rw [h]
    decide

/-- C5 counterexample: when the HTTP GET raises, the exception is caught
and logged but the secondary window is left open and focus is not
restored to the primary window — the close/switch-back statements are
skipped, contradicting "closed ... regardless of the download outcome,
including when an exception occurs". -/
theorem window_not_closed_on_exception_counterexample :
    (downloadRecord envHttpError recJohn "sei_pdfs" emptyWorld).secondaryOpen =
      true ∧
    (downloadRecord envHttpError recJohn "sei_pdfs" emptyWorld).focusPrimary =
      false ∧
    (downloadRecord envHttpError recJohn "sei_pdfs" emptyWorld).loggedErrors ≠
      [] := by
  decide

/-- C5 (amended): when a secondary window was opened and no exception
occurs in the remaining steps of the iteration, the secondary window is
closed and focus restored to the primary window whatever the HTTP status
code was (success or not); but an exception during URL retrieval, HTTP
GET, or file writing is merely caught and logged, leaving the secondary
window open and focus unrestored. -/
theorem window_closed_when_no_exception (env : RecordEnv) (r : ResultRecord)
    (dir : String) (w : World) (u : String) (resp : HttpResponse)
    (hjs : str_startswith r.link "javascript:" = true)
    (hex : env.execScript = .ok ())
    (hwin : env.window_handles.length > 1)
    (hsw : env.switchToSecond = .ok ())
    (hurl : env.current_url = .ok u)
    (hget : env.httpGet u = .ok resp)
    (hwr : env.writeOk = .ok ())
    (hcl : env.closeOk = .ok ())
    (hsb : env.switchBack = .ok ()) :
    (downloadRecord env r dir w).secondaryOpen = false ∧
    (downloadRecord env r dir w).focusPrimary = true ∧
    (downloadRecord env r dir w).loggedErrors = w.loggedErrors := by
  by_cases hst : (resp.status_code == 200) = true <;>
    simp [downloadRecord, downloadRecordTry, closeAndSwitchBack, hjs, hex,
      hwin, hsw, hurl, hget, hwr, hcl, hsb, hst]

/-- Witness for the amended C5: with a non-success HTTP status (404) and
no exception, the secondary window is still closed and focus restored. -/
theorem window_closed_when_no_exception_witness :
    (downloadRecord envNotFound recJohn "sei_pdfs" emptyWorld).secondaryOpen =
      false ∧
    (downloadRecord envNotFound recJohn "sei_pdfs" emptyWorld).focusPrimary =
      true ∧
    (downloadRecord envNotFound recJohn "sei_pdfs" emptyWorld).loggedErrors =
      emptyWorld.loggedErrors :=
  window_closed_when_no_exception envNotFound recJohn "sei_pdfs" emptyWorld
    "http://example.org/sei123.pdf" ⟨404, []⟩ (by decide) rfl (by decide) rfl
    rfl rfl rfl rfl rfl

/-- C8: the filename is derived deterministically from name and position
by replacing spaces with underscores and appending ".pdf" (for
John Smith / Governor this is John_Smith_Governor.pdf, and no space ever
survives); a successful download writes exactly to that derived path
under the output directory; and writing twice to one path keeps only the
second content — identical derived filenames silently overwrite. -/
theorem filename_derivation_and_overwrite
    (fs : List (String × List Nat)) (p : String) (c1 c2 : List Nat)
    (env : RecordEnv) (r : ResultRecord) (dir : String) (w : World)
    (u : String) (resp : HttpResponse)
    (hjs : str_startswith r.link "javascript:" = true)
    (hex : env.execScript = .ok ())
    (hwin : env.window_handles.length > 1)
    (hsw : env.switchToSecond = .ok ())
    (hurl : env.current_url = .ok u)
    (hget : env.httpGet u = .ok resp)
    (hst : resp.status_code = 200)
    (hwr : env.writeOk = .ok ())
    (hcl : env.closeOk = .ok ())
    (hsb : env.switchBack = .ok ()) :
    deriveFilename "John Smith" "Governor" = "John_Smith_Governor.pdf" ∧
    (∀ n pos : String, (' ' : Char) ∉ (deriveFilename n pos).data) ∧
    lookupFile (setFile (setFile fs p c1) p c2) p = some c2 ∧
    (downloadRecord env r dir w).files =
      setFile w.files (joinPath dir (deriveFilename r.name r.position))
        resp.content := by
  refine ⟨by decide, fun n pos => space_not_mem_deriveFilename n pos,
    lookupFile_setFile (setFile fs p c1) p c2, ?_⟩
  simp [downloadRecord, downloadRecordTry, closeAndSwitchBack, hjs, hex,
    hwin, hsw, hurl, hget, hst, hwr, hcl, hsb]

/-- Witness for C8: a successful download of John Smith / Governor writes
sei_pdfs/John_Smith_Governor.pdf, and a second write to the same path
overwrites the first content. -/
theorem filename_derivation_and_overwrite_witness :
    deriveFilename "John Smith" "Governor" = "John_Smith_Governor.pdf" ∧
    lookupFile (setFile (setFile [] "sei_pdfs/John_Smith_Governor.pdf" [1])
        "sei_pdfs/John_Smith_Governor.pdf" [2])
      "sei_pdfs/John_Smith_Governor.pdf" = some [2] ∧
    (downloadRecord envAllOk recJohn "sei_pdfs" emptyWorld).files =
      setFile [] (joinPath "sei_pdfs" (deriveFilename "John Smith" "Governor"))
        [37, 80, 68, 70] :=
  have h := filename_derivation_and_overwrite []
    "sei_pdfs/John_Smith_Governor.pdf" [1] [2] envAllOk recJohn "sei_pdfs"
    emptyWorld "http://example.org/sei123.pdf" ⟨200, [37, 80, 68, 70]⟩
    (by decide) rfl (by decide) rfl rfl rfl rfl rfl rfl rfl
  ⟨h.1, h.2.2.1, h.2.2.2⟩

/-- C10: a record whose link has no "javascript:" prefix, or whose
script execution leaves at most one window handle, is skipped silently:
the world is unchanged except for the loop-entry trace — no HTTP request,
no file write, no logged error — and the loop goes on to the remaining
records. -/
theorem non_javascript_or_single_window_skipped (env : RecordEnv)
    (r : ResultRecord) (dir : String) (w : World) :
    (str_startswith r.link "javascript:" = false →
      downloadRecord env r dir w =
        { w with processed := w.processed ++ [r.name] }) ∧
    (env.execScript = .ok () → env.window_handles.length ≤ 1 →
      downloadRecord env r dir w =
        { w with processed := w.processed ++ [r.name] }) ∧
    (∀ rest : List (ResultRecord × RecordEnv),
      download_sei_pdfs ((r, env) :: rest) dir w =
        download_sei_pdfs rest dir (downloadRecord env r dir w)) := by
  refine ⟨?_, ?_, fun rest => rfl⟩
  · intro h
    simp [downloadRecord, downloadRecordTry, h]
  · intro hex hwin
    have hno : ¬ (env.window_handles.length > 1) := by omega
    by_cases hjs : str_startswith r.link "javascript:" = true
    · simp [downloadRecord, downloadRecordTry, hjs, hex, hno]
    · simp [downloadRecord, downloadRecordTry, hjs]

/-- Witness for C10: a direct-URL record, and a javascript record whose
execution opens no second window, each leave the world untouched apart
from the loop-entry trace. -/
theorem non_javascript_or_single_window_skipped_witness :
    downloadRecord envAllOk recPlain "sei_pdfs" emptyWorld =
      { emptyWorld with processed := ["Jane Doe"] } ∧
    downloadRecord envOneWindow recJohn "sei_pdfs" emptyWorld =
      { emptyWorld with processed := ["John Smith"] } :=
  ⟨(non_javascript_or_single_window_skipped envAllOk recPlain "sei_pdfs"
      emptyWorld).1 (by decide),
   (non_javascript_or_single_window_skipped envOneWindow recJohn "sei_pdfs"
      emptyWorld).2.1 rfl (by decide)⟩

/-- C6: the "fallback selector" is dead code.  On a page whose
first-name input carries a different id that the pattern selector
would match, the CSS fallback lookup succeeds — yet the locate sequence
fails, because `find_element` raises on the absent primary id before the
`if not ...` fallback (itself unreachable: elements are always truthy)
can run, and the form fill takes the fatal screenshot-and-propagate
path.  This contradicts the claimed primary-then-fallback behaviour and
the source's own "Try alternative selector" comments. -/
theorem primary_id_absent_fatal_despite_matching_fallback :
    find_element_css_id_contains pageAltFirstName "FirstName" =
      .ok ⟨"input", "ctl01_Alt_txtFirstName", ""⟩ ∧
    locate_first_name pageAltFirstName =
      .error "NoSuchElementException: id=ctl00_MainContentPlaceHolder_txtFirstName" ∧
    search_sei_fill_form pageAltFirstName (some "John") none none none =
      .error "NoSuchElementException: id=ctl00_MainContentPlaceHolder_txtFirstName" :=
  ⟨rfl, rfl, rfl⟩

/-- C7 counterexample: on a page where inputs for entity type and
position exist, providing only `position` (resp. only `entity_type`)
fills no form field at all — the search is submitted with an empty entry
list, refuting "whenever a field of the criteria is set, the
corresponding form input is filled". -/
theorem entity_and_position_ignored_counterexample :
    search_sei_fill_form pageAllFields none none none (some "Governor") =
      .ok { fieldEntries := [],
            clicked := ["ctl00_MainContentPlaceHolder_btnSearchSEI"] } ∧
    search_sei_fill_form pageAllFields none none (some "State") none =
      .ok { fieldEntries := [],
            clicked := ["ctl00_MainContentPlaceHolder_btnSearchSEI"] } :=
  ⟨rfl, rfl⟩

/-- C7 (amended): `search_sei` populates only the first-name and
last-name criteria: the outcome of the form fill is independent of the
`entity_type` and `position` arguments, and when first and last name are
provided and the fill succeeds, entries carrying both names were typed
into the form. -/
theorem only_first_and_last_name_filled (p : FormPage)
    (fn ln et pos et2 pos2 : Option String) :
    search_sei_fill_form p fn ln et pos =
      search_sei_fill_form p fn ln et2 pos2 ∧
    ∀ (f l : String) (st : FormState),
      fn = some f → ln = some l →
      search_sei_fill_form p fn ln et pos = .ok st →
      (∃ e1, (e1, f) ∈ st.fieldEntries) ∧
      (∃ e2, (e2, l) ∈ st.fieldEntries) := by
  refine ⟨rfl, ?_⟩
  intro f l st hf hl hok
  subst hf
  subst hl
  unfold search_sei_fill_form at hok
  split at hok
  · exact absurd hok (by simp)
  · rename_i st1 h1
    split at hok
    · exact absurd hok (by simp)
    · rename_i st2 h2
      obtain ⟨e1, he1⟩ := fill_first_name_some p f _ st1 h1
      obtain ⟨e2, he2⟩ := fill_last_name_some p l st1 st2 h2
      have hce := click_search_entries p st2 st hok
      constructor
      · refine ⟨e1, ?_⟩
        rw [hce]
        apply fill_last_name_mono p (some l) st1 st2 h2
        rw [he1]
        simp
      · refine ⟨e2, ?_⟩
        rw [hce, he2]
        simp

/-- Witness for the amended C7: with all four criteria provided on a
page carrying all the inputs, the result equals the run with entity
type and position omitted, and both names were typed into the form. -/
theorem only_first_and_last_name_filled_witness :
    search_sei_fill_form pageAllFields (some "John") (some "Smith")
        (some "State") (some "Governor") =
      search_sei_fill_form pageAllFields (some "John") (some "Smith")
        none none ∧
    (∃ e1, (e1, "John") ∈
      ({ fieldEntries := [("ctl00_MainContentPlaceHolder_txtFirstName", "John"),
           ("ctl00_MainContentPlaceHolder_txtLastName", "Smith")],
         clicked := ["ctl00_MainContentPlaceHolder_btnSearchSEI"] } :
        FormState).fieldEntries) ∧
    (∃ e2, (e2, "Smith") ∈
      ({ fieldEntries := [("ctl00_MainContentPlaceHolder_txtFirstName", "John"),
           ("ctl00_MainContentPlaceHolder_txtLastName", "Smith")],
         clicked := ["ctl00_MainContentPlaceHolder_btnSearchSEI"] } :
        FormState).fieldEntries) :=
  have h := only_first_and_last_name_filled pageAllFields (some "John")
    (some "Smith") (some "State") (some "Governor") none none
  have h2 := h.2 "John" "Smith"
    { fieldEntries := [("ctl00_MainContentPlaceHolder_txtFirstName", "John"),
        ("ctl00_MainContentPlaceHolder_txtLastName", "Smith")],
      clicked := ["ctl00_MainContentPlaceHolder_btnSearchSEI"] }
    rfl rfl rfl
  ⟨h.1, h2.1, h2.2⟩

end Scrape
